import Mathlib

/-!
Verification of the rate-limited Reddit comment-count fetcher.

The development shallowly embeds the two source files:

* `rate_limiter.py` — `APIRateLimiter` with `wait_with_jitter` and the
  `rate_limit` decorator producing `wrapper` (a retry loop guarded by an
  `asyncio.Semaphore`).
* `main.py` — `RedditAPIClient.get_submission_comments`,
  `RedditAPIClient._write_comments_to_excel`, and `ExcelHandler`
  (`write_data_to_sheet`, `_get_or_create_sheet`, `sort_output_by_traffic`,
  `_sort_sheet_data_by_traffic`, `_replace_sheet_data`).

The wrapper's sequential behaviour is modelled as a function over a script
of call outcomes; the semaphore-bounded concurrency is modelled as a small
labelled transition system over task phases.
-/

/-- Outcome of one invocation of the wrapped async function: it either
returns a value, raises `ResponseException` with an HTTP status
(`respErr`), or raises a `RequestException` (`transportErr`, no status). -/
inductive Outcome where
  | success (v : Nat)
  | respErr (status : Nat)
  | transportErr
deriving DecidableEq, Repr

/-- Log events produced by the wrapper: `warn r` is the
"Rate limit hit. Waiting ... before retry r" warning emitted by
`wait_with_jitter`, and `error a` is the
"Max retries exceeded for args[1]" error, carrying `args[1]`. -/
inductive LogEvent where
  | warn (retries : Nat)
  | error (arg : String)
deriving DecidableEq, Repr

/-- How a run of the wrapper ends: a returned value or a propagated
exception (the exception is the `Outcome` that was raised). -/
inductive RunResult where
  | ok (v : Nat)
  | raised (e : Outcome)
deriving DecidableEq, Repr

/-- Observable summary of one run of `wrapper`: its result, the number of
invocations of the wrapped function, the emitted log events in order, the
number of times `retries += 1` executed, and whether the unguarded call
after the `while` loop ran. -/
structure RunOut where
  result : RunResult
  calls : Nat
  logs : List LogEvent
  retryIncs : Nat
  usedFallback : Bool
deriving DecidableEq, Repr

/-- `e` is caught and retried by the wrapper: a `ResponseException` with
status 429, or any `RequestException` (the `isinstance` guard at line 74
of `rate_limiter.py` re-raises only `ResponseException`s whose status is
not 429). -/
def isRetryable : Outcome → Bool
  | .success _ => false
  | .respErr s => s == 429
  | .transportErr => true

/-- One loop iteration plus the code after the loop of `wrapper`
(`rate_limiter.py` lines 67–82), embedded with explicit fuel.  `f` maps
the call index to that call's outcome, `M` is `max_retries`, `arg1` is
`args[1]`, `idx` is the next call index and `retries` the current counter.
`none` means the fuel ran out (never happens from the real entry point).
The `retries > M` branch is the unguarded `return await func(*args)` after
the loop. -/
def wrapperGo (f : Nat → Outcome) (M : Nat) (arg1 : String) :
    Nat → Nat → Nat → Option RunOut
  | 0, _, _ => none
  | fuel + 1, idx, retries =>
    if retries ≤ M then
      match f idx with
      | .success v => some ⟨.ok v, 1, [], 0, false⟩
      | .respErr s =>
        if s ≠ 429 then
          some ⟨.raised (.respErr s), 1, [], 0, false⟩
        else if retries + 1 > M then
          some ⟨.raised (.respErr s), 1, [.error arg1], 1, false⟩
        else
          match wrapperGo f M arg1 fuel (idx + 1) (retries + 1) with
          | none => none
          | some out =>
            some ⟨out.result, out.calls + 1, .warn (retries + 1) :: out.logs,
              out.retryIncs + 1, out.usedFallback⟩
      | .transportErr =>
        if retries + 1 > M then
          some ⟨.raised .transportErr, 1, [.error arg1], 1, false⟩
        else
          match wrapperGo f M arg1 fuel (idx + 1) (retries + 1) with
          | none => none
          | some out =>
            some ⟨out.result, out.calls + 1, .warn (retries + 1) :: out.logs,
              out.retryIncs + 1, out.usedFallback⟩
    else
      match f idx with
      | .success v => some ⟨.ok v, 1, [], 0, true⟩
      | e => some ⟨.raised e, 1, [], 0, true⟩

/-- A full run of `wrapper` from `retries = 0`.  The fuel `M + 2` strictly
exceeds the greatest possible number of loop iterations (`M + 1`). -/
def wrapperRun (f : Nat → Outcome) (M : Nat) (arg1 : String) : Option RunOut :=
  wrapperGo f M arg1 (M + 2) 0 0

/-- `delay = base_delay * (2 ** (retries - 1))` from `wait_with_jitter`
(`rate_limiter.py` line 49), over exact rationals. -/
def delay (base : ℚ) (retries : Nat) : ℚ := base * 2 ^ (retries - 1)

/-- `wait_time = delay + jitter` from `wait_with_jitter`
(`rate_limiter.py` line 51); the jitter is passed in as the value drawn by
`random.uniform(0, delay * 0.1)`. -/
def wait_time (base : ℚ) (retries : Nat) (jitter : ℚ) : ℚ :=
  delay base retries + jitter

/-!
### Concurrency model of the semaphore-guarded wrapper

Each logical task runs `wrapper` over its own outcome script.  Its control
point is one of:

* `ready r` — at the `while retries <= max_retries` check, about to enter
  `async with self.semaphore` (not holding a slot);
* `running r` — inside the `async with` block, awaiting
  `func(*args, **kwargs)` (holding a slot);
* `backoff r` — inside the `async with` block, sleeping in
  `wait_with_jitter` after `retries` became `r` (still holding a slot: the
  `await self.wait_with_jitter(...)` at line 81 is inside the `async with
  self.semaphore` block that starts at line 70);
* `done` / `failed` — returned / raised, slot released.

The unguarded post-loop call is `ready r` with `r > M`; the `fallback`
step models it without touching the semaphore. -/
inductive Phase where
  | ready (retries : Nat)
  | running (retries : Nat)
  | backoff (retries : Nat)
  | done
  | failed
deriving DecidableEq, Repr

/-- A logical task: its control point, its outcome script, and the index
of its next call. -/
structure GTask where
  phase : Phase
  script : Nat → Outcome
  idx : Nat

/-- Global state: the semaphore's free-slot count (`asyncio.Semaphore`
internal value) and the tasks, in a fixed order. -/
structure GateState where
  sem : Nat
  tasks : List GTask

/-- One interleaving step of the system, for `max_retries = M`.  A task is
singled out positionally as `pre ++ t :: post`.  Semaphore accounting
follows `asyncio.Semaphore`: `acquire` requires a free slot and takes it;
the slot is returned exactly when the `async with` block exits — on
return, on raise, or at the end of a loop iteration after the backoff
sleep. -/
inductive GateStep (M : Nat) : GateState → GateState → Prop
  | acquire (s r : Nat) (f : Nat → Outcome) (i : Nat) (pre post : List GTask)
      (hr : r ≤ M) :
      GateStep M ⟨s + 1, pre ++ ⟨.ready r, f, i⟩ :: post⟩
        ⟨s, pre ++ ⟨.running r, f, i⟩ :: post⟩
  | callSuccess (s r : Nat) (f : Nat → Outcome) (i v : Nat)
      (pre post : List GTask) (hf : f i = .success v) :
      GateStep M ⟨s, pre ++ ⟨.running r, f, i⟩ :: post⟩
        ⟨s + 1, pre ++ ⟨.done, f, i + 1⟩ :: post⟩
  | callRaiseOther (s r : Nat) (f : Nat → Outcome) (i st : Nat)
      (pre post : List GTask) (hf : f i = .respErr st) (hst : st ≠ 429) :
      GateStep M ⟨s, pre ++ ⟨.running r, f, i⟩ :: post⟩
        ⟨s + 1, pre ++ ⟨.failed, f, i + 1⟩ :: post⟩
  | callExhaust (s r : Nat) (f : Nat → Outcome) (i : Nat)
      (pre post : List GTask) (hf : isRetryable (f i) = true)
      (hr : r + 1 > M) :
      GateStep M ⟨s, pre ++ ⟨.running r, f, i⟩ :: post⟩
        ⟨s + 1, pre ++ ⟨.failed, f, i + 1⟩ :: post⟩
  | callBackoff (s r : Nat) (f : Nat → Outcome) (i : Nat)
      (pre post : List GTask) (hf : isRetryable (f i) = true)
      (hr : r + 1 ≤ M) :
      GateStep M ⟨s, pre ++ ⟨.running r, f, i⟩ :: post⟩
        ⟨s, pre ++ ⟨.backoff (r + 1), f, i + 1⟩ :: post⟩
  | wake (s r : Nat) (f : Nat → Outcome) (i : Nat) (pre post : List GTask) :
      GateStep M ⟨s, pre ++ ⟨.backoff r, f, i⟩ :: post⟩
        ⟨s + 1, pre ++ ⟨.ready r, f, i⟩ :: post⟩
  | fallbackReturn (s r : Nat) (f : Nat → Outcome) (i v : Nat)
      (pre post : List GTask) (hr : r > M) (hf : f i = .success v) :
      GateStep M ⟨s, pre ++ ⟨.ready r, f, i⟩ :: post⟩
        ⟨s, pre ++ ⟨.done, f, i + 1⟩ :: post⟩
  | fallbackRaise (s r : Nat) (f : Nat → Outcome) (i : Nat)
      (pre post : List GTask) (hr : r > M) (hf : ∀ v, f i ≠ .success v) :
      GateStep M ⟨s, pre ++ ⟨.ready r, f, i⟩ :: post⟩
        ⟨s, pre ++ ⟨.failed, f, i + 1⟩ :: post⟩

/-- Reachability: reflexive-transitive closure of the interleaving step. -/
def GateReach (M : Nat) : GateState → GateState → Prop :=
  Relation.ReflTransGen (GateStep M)

/-- The initial state for `max_concurrent_requests = N`: the semaphore
holds `N` free slots and every task is at the top of `wrapper` with
`retries = 0`. -/
def gateInit (N : Nat) (scripts : List (Nat → Outcome)) : GateState :=
  ⟨N, scripts.map fun f => ⟨.ready 0, f, 0⟩⟩

/-- The task is past the semaphore-acquire point and before the matching
release: awaiting the wrapped call or sleeping in backoff. -/
def holdsSlot (t : GTask) : Bool :=
  match t.phase with
  | .running _ => true
  | .backoff _ => true
  | _ => false

/-- The task is awaiting the wrapped call itself. -/
def isRunning (t : GTask) : Bool :=
  match t.phase with
  | .running _ => true
  | _ => false

/-- The task is sleeping in `wait_with_jitter`. -/
def isBackoff (t : GTask) : Bool :=
  match t.phase with
  | .backoff _ => true
  | _ => false

/-- Number of tasks currently holding a semaphore slot. -/
def countHolding (st : GateState) : Nat := st.tasks.countP holdsSlot

/-- Number of tasks currently awaiting the wrapped call. -/
def countRunning (st : GateState) : Nat := st.tasks.countP isRunning

/-!
### Model of the Excel output path (`main.py`)

A workbook is an ordered list of named sheets, each an ordered list of
rows of cells, mirroring `openpyxl` as used by `ExcelHandler`:
`create_sheet` appends a sheet at the end, `sheet.append` appends a row,
`delete_rows(2, max_row)` drops every row after the first. -/
inductive Cell where
  | s (v : String)
  | n (v : Nat)
deriving DecidableEq, Repr

/-- A spreadsheet row. -/
abbrev Row := List Cell

/-- A named sheet of the output workbook. -/
structure Sheet where
  name : String
  rows : List Row
deriving DecidableEq

/-- The output workbook: its sheets in `sheetnames` order. -/
abbrev Workbook := List Sheet

/-- The fixed header appended by `_get_or_create_sheet`
(`main.py` line 201). -/
def headerRow : Row := [.s "URL", .s "Number of comments", .s "Traffic"]

/-- `sheet_name in self.write_workbook.sheetnames` (`main.py` line 197). -/
def hasSheet (wb : Workbook) (name : String) : Bool :=
  wb.any fun sh => sh.name == name

/-- The rows of the named sheet (first sheet with that name), `[]` when
absent; the observation used to state the claims. -/
def sheetRows (wb : Workbook) (name : String) : List Row :=
  ((wb.find? fun sh => sh.name == name).map Sheet.rows).getD []

/-- `ExcelHandler.write_data_to_sheet` (`main.py` lines 161–174):
`_get_or_create_sheet` returns the existing sheet or creates it with the
header row, then the data row is appended. -/
def write_data_to_sheet (wb : Workbook) (row_data : Row) (sheet_name : String) :
    Workbook :=
  if hasSheet wb sheet_name then
    wb.map fun sh =>
      if sh.name == sheet_name then ⟨sh.name, sh.rows ++ [row_data]⟩ else sh
  else
    wb ++ [⟨sheet_name, [headerRow, row_data]⟩]

/-- `RedditAPIClient._write_comments_to_excel` (`main.py` lines 75–79). -/
def write_comments_to_excel (wb : Workbook) (submission_url : String)
    (comments_count : Nat) (traffic : String) : Workbook :=
  if comments_count = 0 then
    write_data_to_sheet wb [.s submission_url, .n 0, .s traffic] "No comments"
  else if 1 ≤ comments_count ∧ comments_count ≤ 3 then
    write_data_to_sheet wb [.s submission_url, .n comments_count, .s traffic]
      "3 or less comments"
  else
    wb

/-- Ordering of cell values as compared by Python's `sorted` on the
third-column values; the data written by this program always has a string
there, and strings compare lexicographically. -/
def cellLe : Cell → Cell → Bool
  | .s a, .s b => a ≤ b
  | .n a, .n b => a ≤ b
  | .n _, .s _ => true
  | .s _, .n _ => false

/-- `lambda x: x[2]` — the third-column sort key (`main.py` line 230). -/
def rowKey (r : Row) : Cell := r.getD 2 (.s "")

/-- `row comes no later than row'` under
`sorted(..., key=lambda x: x[2], reverse=True)`: descending by key.  A
stable sort with this relation coincides with Python's stable
`sorted(..., reverse=True)`. -/
def rowGe (a b : Row) : Bool := cellLe (rowKey b) (rowKey a)

/-- `ExcelHandler._sort_sheet_data_by_traffic` (`main.py` line 230):
sort the data rows (row 2 onward) descending by the third column. -/
def sort_sheet_data_by_traffic (dataRows : List Row) : List Row :=
  dataRows.mergeSort rowGe

/-- One sheet's worth of `sort_output_by_traffic`:
`_sort_sheet_data_by_traffic` then `_replace_sheet_data` (delete rows
from 2 on, append the sorted rows), leaving row 1 in place. -/
def sortSheet (sh : Sheet) : Sheet :=
  match sh.rows with
  | [] => ⟨sh.name, []⟩
  | hdr :: dataRows => ⟨sh.name, hdr :: sort_sheet_data_by_traffic dataRows⟩

/-- `ExcelHandler.sort_output_by_traffic` (`main.py` lines 204–215):
every sheet of the workbook is sorted in place. -/
def sort_output_by_traffic (wb : Workbook) : Workbook := wb.map sortSheet

/-- The submission attributes `get_submission_comments` inspects. -/
structure Submission where
  locked : Bool
  archived : Bool
  numComments : Nat
deriving DecidableEq, Repr

/-- What `await self.reddit.submission(url=...)` produced: a submission,
or an `asyncpraw.exceptions.InvalidURL` raise. -/
inductive FetchResult where
  | ok (sub : Submission)
  | invalidURL
deriving DecidableEq, Repr

/-- Log messages emitted inside `get_submission_comments`. -/
inductive MainLog where
  | warnInvalid (url : String)
  | infoProcessed (url : String) (comments : Nat)
deriving DecidableEq, Repr

/-- `RedditAPIClient.get_submission_comments` (`main.py` lines 53–73),
with the network fetch abstracted as its result: on `InvalidURL` log a
warning and return; if the submission is locked or archived return with
no write and no log; otherwise write the comment count and log. -/
def get_submission_comments (fetch : FetchResult) (wb : Workbook)
    (submission_url : String) (traffic : String) : Workbook × List MainLog :=
  match fetch with
  | .invalidURL => (wb, [.warnInvalid submission_url])
  | .ok sub =>
    if sub.locked || sub.archived then
      (wb, [])
    else
      (write_comments_to_excel wb submission_url sub.numComments traffic,
        [.infoProcessed submission_url sub.numComments])

/-- The log event is an error-level message (`self.logger.error`, emitted
only at retry exhaustion). -/
def isErrorLog : LogEvent → Bool
  | .error _ => true
  | .warn _ => false

/-!
### Lemmas about the retry wrapper
-/

/-- When every call fails retryably, a run of the loop started at
`retries = r` with `r + d = M` makes `d + 1` further calls, warns at
retry ordinals `r+1, …, r+d`, logs one exhaustion error, increments
`retries` a total of `d + 1` times, raises the last call's exception, and
never reaches the post-loop fallback. -/
lemma wrapperGo_all_retryable (f : Nat → Outcome) (M : Nat) (arg1 : String)
    (hf : ∀ i, isRetryable (f i) = true) :
    ∀ d idx r, r + d = M →
      wrapperGo f M arg1 (d + 2) idx r =
        some ⟨.raised (f (idx + d)), d + 1,
          ((List.range d).map fun k => .warn (r + 1 + k)) ++ [.error arg1],
          d + 1, false⟩ := by
  intro d
  induction d with
  | zero =>
    intro idx r hr
    have hle : r ≤ M := by omega
    have hgt : r + 1 > M := by omega
    have hfi := hf idx
    rw [wrapperGo]
    rw [if_pos hle]
    cases hidx : f idx with
    | success v => rw [hidx] at hfi; simp [isRetryable] at hfi
    | respErr s =>
      rw [hidx] at hfi
      have hs : s = 429 := by simpa [isRetryable] using hfi
      subst hs
      simp [hgt, hidx]
    | transportErr => simp [hgt, hidx]
  | succ d ih =>
    intro idx r hr
    have hle : r ≤ M := by omega
    have hngt : ¬ r + 1 > M := by omega
    have hfi := hf idx
    have hrec := ih (idx + 1) (r + 1) (by omega)
    rw [wrapperGo]
    rw [if_pos hle]
    cases hidx : f idx with
    | success v => rw [hidx] at hfi; simp [isRetryable] at hfi
    | respErr s =>
      rw [hidx] at hfi
      have hs : s = 429 := by simpa [isRetryable] using hfi
      subst hs
      have hidx' : idx + 1 + d = idx + (d + 1) := by omega
      have hwarns : ((List.range (d + 1)).map fun k => LogEvent.warn (r + 1 + k)) =
          LogEvent.warn (r + 1) :: ((List.range d).map fun k => LogEvent.warn (r + 1 + 1 + k)) := by
        rw [List.range_succ_eq_map, List.map_cons, List.map_map]
        refine List.cons_eq_cons.mpr ⟨rfl, ?_⟩
        refine List.map_congr_left fun k _ => ?_
        simp [Function.comp]
        omega
      simp [if_neg hngt, hrec, hidx', hwarns]
    | transportErr =>
      have hidx' : idx + 1 + d = idx + (d + 1) := by omega
      have hwarns : ((List.range (d + 1)).map fun k => LogEvent.warn (r + 1 + k)) =
          LogEvent.warn (r + 1) :: ((List.range d).map fun k => LogEvent.warn (r + 1 + 1 + k)) := by
        rw [List.range_succ_eq_map, List.map_cons, List.map_map]
        refine List.cons_eq_cons.mpr ⟨rfl, ?_⟩
        refine List.map_congr_left fun k _ => ?_
        simp [Function.comp]
        omega
      simp [if_neg hngt, hrec, hidx', hwarns]





/-- From any loop state with `retries + d = max_retries`, the run
terminates (the fuel `d + 2` suffices) and the post-loop fallback call is
never executed. -/
lemma wrapperGo_total_no_fallback (f : Nat → Outcome) (M : Nat) (arg1 : String) :
    ∀ d idx r, r + d = M →
      ∃ out, wrapperGo f M arg1 (d + 2) idx r = some out ∧
        out.usedFallback = false := by
  intro d
  induction d with
  | zero =>
    intro idx r hr
    have hle : r ≤ M := by omega
    have hgt : r + 1 > M := by omega
    rw [wrapperGo]
    rw [if_pos hle]
    cases hidx : f idx with
    | success v => exact ⟨_, rfl, rfl⟩
    | respErr s =>
      by_cases hs : s = 429
      · subst hs
        simp [hgt]
      · simp [hs]
    | transportErr => simp [hgt]
  | succ d ih =>
    intro idx r hr
    have hle : r ≤ M := by omega
    have hngt : ¬ r + 1 > M := by omega
    obtain ⟨out, hout, hfb⟩ := ih (idx + 1) (r + 1) (by omega)
    rw [wrapperGo]
    rw [if_pos hle]
    cases hidx : f idx with
    | success v => exact ⟨_, rfl, rfl⟩
    | respErr s =>
      by_cases hs : s = 429
      · subst hs
        simp [if_neg hngt, hout, hfb]
      · simp [hs]
    | transportErr => simp [if_neg hngt, hout, hfb]

/-- Semaphore accounting invariant: at every reachable state the free
slots plus the tasks inside the `async with` block total
`max_concurrent_requests`. -/
lemma gate_inv (M N : Nat) (scripts : List (Nat → Outcome)) (st : GateState)
    (h : GateReach M (gateInit N scripts) st) :
    st.sem + countHolding st = N := by
  induction h with
  | refl =>
    have hz : countHolding (gateInit N scripts) = 0 := by
      simp [gateInit, countHolding, List.countP_map]
      intro a _
      rfl
    rw [hz]
    simp [gateInit]
  | tail hab hstep ih =>
    cases hstep <;>
      simp_all [countHolding, List.countP_append, List.countP_cons, holdsSlot] <;>
      omega

/-- A task counted by `isBackoff` is counted by `holdsSlot`. -/
lemma countP_backoff_le_holding (l : List GTask) :
    l.countP isBackoff ≤ l.countP holdsSlot := by
  refine List.countP_mono_left fun t _ hb => ?_
  cases ht : t.phase <;> simp_all [isBackoff, holdsSlot]


/-- `cellLe` is transitive. -/
lemma cellLe_trans (a b c : Cell) (hab : cellLe a b = true)
    (hbc : cellLe b c = true) : cellLe a c = true := by
  cases a <;> cases b <;> cases c <;> simp_all [cellLe] <;>
    exact le_trans hab hbc

/-- `cellLe` is total. -/
lemma cellLe_total (a b : Cell) : cellLe a b || cellLe b a := by
  cases a <;> cases b <;> simp [cellLe] <;> exact le_total _ _

/-- `rowGe` is transitive. -/
lemma rowGe_trans (a b c : Row) (hab : rowGe a b = true)
    (hbc : rowGe b c = true) : rowGe a c = true :=
  cellLe_trans _ _ _ hbc hab

/-- `rowGe` is total. -/
lemma rowGe_total (a b : Row) : rowGe a b || rowGe b a := by
  simpa [rowGe] using cellLe_total (rowKey b) (rowKey a)

/-- Observable effect of `write_data_to_sheet` on the target sheet: the
data row lands at the end of the sheet's rows, after the fixed header when
the sheet had to be created. -/
lemma sheetRows_write (wb : Workbook) (row : Row) (name : String) :
    sheetRows (write_data_to_sheet wb row name) name =
      (if hasSheet wb name then sheetRows wb name else [headerRow]) ++ [row] := by
  by_cases hex : hasSheet wb name
  · rw [write_data_to_sheet, if_pos hex, if_pos hex]
    have hsome : (wb.find? fun sh => sh.name == name).isSome := by
      rw [List.find?_isSome]
      simpa [hasSheet, List.any_eq_true] using hex
    obtain ⟨sh₀, hsh₀⟩ := Option.isSome_iff_exists.mp hsome
    have hp : (sh₀.name == name) = true := by
      have := List.find?_some hsh₀
      simpa using this
    have hcomp : ((fun sh : Sheet => sh.name == name) ∘ fun sh : Sheet =>
        if sh.name == name then (⟨sh.name, sh.rows ++ [row]⟩ : Sheet) else sh) =
        fun sh : Sheet => sh.name == name := by
      funext sh
      by_cases h : (sh.name == name) = true <;> simp [Function.comp, h]
    rw [sheetRows, List.find?_map, hcomp, hsh₀]
    rw [sheetRows, hsh₀]
    have hpe : sh₀.name = name := by simpa using hp
    simp [hpe]
  · rw [write_data_to_sheet, if_neg hex, if_neg hex]
    have hnone : (wb.find? fun sh => sh.name == name) = none := by
      rw [List.find?_eq_none]
      intro x hx hpx
      exact hex (by rw [hasSheet, List.any_eq_true]; exact ⟨x, hx, hpx⟩)
    rw [sheetRows, List.find?_append, hnone]
    simp [sheetRows]

/-!
### Claim theorems
-/

/-- C2: For every `max_retries = M ≥ 0`, when every invocation fails with
a retryable failure (a 429 response or a transport failure), the wrapper
invokes the operation exactly `M + 1` times, emits the backoff warnings at
retry ordinals `1, …, M`, logs exactly one error naming the call's second
positional argument on the final attempt, increments `retries` once per
failure (`M + 1` times in total, raising as soon as `retries > M`), and
propagates the final failure. -/
theorem wrapper_exhausts_retries (f : Nat → Outcome) (M : Nat) (arg1 : String)
    (hf : ∀ i, isRetryable (f i) = true) :
    wrapperRun f M arg1 =
      some ⟨.raised (f M), M + 1,
        ((List.range M).map fun k => .warn (1 + k)) ++ [.error arg1],
        M + 1, false⟩ ∧
    (((List.range M).map fun k => LogEvent.warn (1 + k)) ++
        [LogEvent.error arg1]).countP isErrorLog = 1 := by
  have h := wrapperGo_all_retryable f M arg1 hf M 0 0 (by omega)
  simp only [Nat.zero_add] at h
  refine ⟨by rw [wrapperRun]; exact h, ?_⟩
  rw [List.countP_append]
  have hz : ((List.range M).map fun k => LogEvent.warn (1 + k)).countP isErrorLog = 0 := by
    rw [List.countP_map]
    exact List.countP_eq_zero.mpr fun a _ => by
      simp [Function.comp, isErrorLog]
  rw [hz]
  rfl

/-- Witness for C2 at `max_retries = 1`, a script failing with 429
everywhere, and `args[1] = "u"`. -/
theorem wrapper_exhausts_retries_witness :
    wrapperRun (fun _ => Outcome.respErr 429) 1 "u" =
      some ⟨.raised (Outcome.respErr 429), 2, [.warn 1, .error "u"], 2, false⟩ := by
  have h := (wrapper_exhausts_retries (fun _ => Outcome.respErr 429) 1 "u"
    fun i => rfl).1
  simpa [List.range_succ] using h

/-- C3: For every `retries` in `[1, max_retries]` and positive
`initial_delay`, the pre-jitter delay is
`initial_delay * 2 ^ (retries - 1)`, the jitter drawn from
`[0, delay * 0.1]` puts `wait_time` in `[delay, delay * 1.1]`, and the
first wait after the first failure (post-increment `retries = 1`) uses
exponent `0`, i.e. a delay of exactly `initial_delay`. -/
theorem wait_with_jitter_formula (base : ℚ) (M r : Nat) (jitter : ℚ)
    (hr1 : 1 ≤ r) (hrM : r ≤ M) (hbase : 0 < base)
    (hj0 : 0 ≤ jitter) (hj1 : jitter ≤ delay base r * (1 / 10)) :
    delay base r = base * 2 ^ (r - 1) ∧
      delay base r ≤ wait_time base r jitter ∧
      wait_time base r jitter ≤ delay base r * (11 / 10) ∧
      (r = 1 → delay base r = base) := by
  have hd : (0 : ℚ) < delay base r := by
    rw [delay]
    positivity
  refine ⟨rfl, ?_, ?_, ?_⟩
  · rw [wait_time]
    linarith
  · rw [wait_time]
    linarith
  · intro h1
    subst h1
    simp [delay]

/-- Witness for C3 at `initial_delay = 1`, `retries = 1`,
`max_retries = 3`, zero jitter. -/
theorem wait_with_jitter_formula_witness :
    delay 1 1 = 1 * 2 ^ (1 - 1) ∧
      delay 1 1 ≤ wait_time 1 1 0 ∧
      wait_time 1 1 0 ≤ delay 1 1 * (11 / 10) ∧
      (1 = 1 → delay 1 1 = 1) :=
  wait_with_jitter_formula 1 3 1 0 (by norm_num) (by norm_num) (by norm_num)
    (by norm_num) (by norm_num [delay])

/-- C5: A `ResponseException` whose status is not 429 on the first call is
re-raised at once: one invocation, no backoff wait, no log, no `retries`
increment, and no fallback call. -/
theorem wrapper_non429_propagates (f : Nat → Outcome) (M : Nat)
    (arg1 : String) (s : Nat) (hf : f 0 = .respErr s) (hs : s ≠ 429) :
    wrapperRun f M arg1 = some ⟨.raised (.respErr s), 1, [], 0, false⟩ := by
  rw [wrapperRun, wrapperGo]
  rw [if_pos (by omega : (0 : Nat) ≤ M)]
  rw [hf]
  simp [hs]

/-- Witness for C5 with a 404 response. -/
theorem wrapper_non429_propagates_witness :
    wrapperRun (fun _ => Outcome.respErr 404) 3 "u" =
      some ⟨.raised (.respErr 404), 1, [], 0, false⟩ :=
  wrapper_non429_propagates (fun _ => Outcome.respErr 404) 3 "u" 404 rfl
    (by omega)

/-- C6 counterexample: with `max_retries = 1`, a script that always fails
with a transport failure is not propagated immediately — the wrapper
performs a backoff wait and a second invocation, contradicting the claim
that such failures propagate with no retry and no wait. -/
theorem transport_propagates_immediately_counterexample :
    wrapperRun (fun _ => Outcome.transportErr) 1 "u1" ≠
        some ⟨.raised Outcome.transportErr, 1, [], 0, false⟩ ∧
      wrapperRun (fun _ => Outcome.transportErr) 1 "u1" =
        some ⟨.raised Outcome.transportErr, 2, [.warn 1, .error "u1"], 2,
          false⟩ := by
  constructor
  · decide
  · decide

/-- C6 amended: a generic transport failure (no HTTP status) is treated as
retryable exactly like a 429: each such failure increments `retries` and
triggers a backoff wait, and the failure is propagated only after
`max_retries + 1` invocations, with one exhaustion error logged. -/
theorem transport_retried_with_backoff (M : Nat) (arg1 : String) :
    wrapperRun (fun _ => Outcome.transportErr) M arg1 =
      some ⟨.raised Outcome.transportErr, M + 1,
        ((List.range M).map fun k => .warn (1 + k)) ++ [.error arg1],
        M + 1, false⟩ := by
  have h := wrapperGo_all_retryable (fun _ => Outcome.transportErr) M arg1
    (fun i => rfl) M 0 0 (by omega)
  simp only [Nat.zero_add] at h
  rw [wrapperRun]
  exact h

/-- C7: the unguarded invocation after the retry loop is unreachable: for
every script, every `max_retries` and every `args[1]`, the wrapper
terminates from inside the loop (by returning or raising) and the
fallback call never executes. -/
theorem wrapper_fallback_unreachable (f : Nat → Outcome) (M : Nat)
    (arg1 : String) :
    ∃ out, wrapperRun f M arg1 = some out ∧ out.usedFallback = false := by
  have h := wrapperGo_total_no_fallback f M arg1 M 0 0 (by omega)
  rw [wrapperRun]
  exact h

/-- C1: for every `max_concurrent_requests = N`, at every reachable state
of every interleaving, at most `N` wrapped operations are simultaneously
past the semaphore-acquire point and before the matching release. -/
theorem gate_never_exceeds_max_concurrent (M N : Nat)
    (scripts : List (Nat → Outcome)) (st : GateState)
    (h : GateReach M (gateInit N scripts) st) :
    countHolding st ≤ N := by
  have hinv := gate_inv M N scripts st h
  omega

/-- Witness for C1: two tasks under `N = 1`, after one of them acquires
the gate. -/
theorem gate_never_exceeds_max_concurrent_witness :
    countHolding ⟨0, [⟨.running 0, fun _ => Outcome.success 0, 0⟩,
      ⟨.ready 0, fun _ => Outcome.success 0, 0⟩]⟩ ≤ 1 :=
  gate_never_exceeds_max_concurrent 3 1
    [fun _ => Outcome.success 0, fun _ => Outcome.success 0] _
    (Relation.ReflTransGen.single
      (GateStep.acquire 0 0 (fun _ => Outcome.success 0) 0 []
        [⟨.ready 0, fun _ => Outcome.success 0, 0⟩] (by omega)))

/-- C4 counterexample: the claim that a backoff-sleeping task has already
released its gate slot (so free slots plus tasks awaiting the wrapped
call always total `N`) is false: with `N = 1`, `max_retries = 1` and a
script that fails with 429, the state in which the lone task sleeps in
backoff is reachable, and there the semaphore still holds 0 free slots
although no task is awaiting the wrapped call. -/
theorem gate_released_before_backoff_counterexample :
    ¬ ∀ st, GateReach 1 (gateInit 1 [fun _ => Outcome.respErr 429]) st →
        st.sem + countRunning st = 1 := by
  intro h
  have hreach : GateReach 1 (gateInit 1 [fun _ => Outcome.respErr 429])
      ⟨0, [⟨.backoff 1, fun _ => Outcome.respErr 429, 1⟩]⟩ :=
    Relation.ReflTransGen.tail
      (Relation.ReflTransGen.single
        (GateStep.acquire 0 0 (fun _ => Outcome.respErr 429) 0 [] []
          (by omega)))
      (GateStep.callBackoff 0 0 (fun _ => Outcome.respErr 429) 0 [] [] rfl
        (by omega))
  have hc := h _ hreach
  simp [countRunning, List.countP_cons, isRunning] at hc

/-- C4 amended: on a rate-limit failure with a retry remaining, the gate
slot is NOT released before the backoff wait — `wait_with_jitter` runs
inside the `async with self.semaphore` block, so the sleeping task keeps
its slot until the loop iteration ends and must re-acquire on the next
iteration.  At every reachable state, free slots plus slot-holding tasks
(running or in backoff) total exactly `N`, and whenever some task is in
backoff, strictly fewer than `N` slots are free. -/
theorem gate_slot_held_during_backoff (M N : Nat)
    (scripts : List (Nat → Outcome)) (st : GateState)
    (h : GateReach M (gateInit N scripts) st) :
    st.sem + countHolding st = N ∧
      (0 < st.tasks.countP isBackoff → st.sem < N) := by
  have hinv := gate_inv M N scripts st h
  refine ⟨hinv, fun hb => ?_⟩
  have hle := countP_backoff_le_holding st.tasks
  have hch : countHolding st = st.tasks.countP holdsSlot := rfl
  omega

/-- Witness for C4 (amended) at the reachable backoff state of a single
429-failing task under `N = 1`. -/
theorem gate_slot_held_during_backoff_witness :
    (⟨0, [⟨.backoff 1, fun _ => Outcome.respErr 429, 1⟩]⟩ : GateState).sem +
        countHolding ⟨0, [⟨.backoff 1, fun _ => Outcome.respErr 429, 1⟩]⟩ = 1 ∧
      (0 < (⟨0, [⟨.backoff 1, fun _ => Outcome.respErr 429, 1⟩]⟩ :
          GateState).tasks.countP isBackoff →
        (⟨0, [⟨.backoff 1, fun _ => Outcome.respErr 429, 1⟩]⟩ :
          GateState).sem < 1) :=
  gate_slot_held_during_backoff 1 1 [fun _ => Outcome.respErr 429] _
    (Relation.ReflTransGen.tail
      (Relation.ReflTransGen.single
        (GateStep.acquire 0 0 (fun _ => Outcome.respErr 429) 0 [] []
          (by omega)))
      (GateStep.callBackoff 0 0 (fun _ => Outcome.respErr 429) 0 [] [] rfl
        (by omega)))

/-- C8: a processed submission with comment count `c`, url `u` and traffic
label `t` is routed as follows: `c = 0` appends `(u, 0, t)` to sheet
"No comments"; `1 ≤ c ≤ 3` appends `(u, c, t)` to sheet
"3 or less comments"; `c > 3` writes nothing; and a sheet absent at write
time is created with the fixed header row before the data row is
appended. -/
theorem write_comments_routing (wb : Workbook) (u : String) (c : Nat)
    (t : String) :
    (c = 0 → sheetRows (write_comments_to_excel wb u c t) "No comments" =
      (if hasSheet wb "No comments" then sheetRows wb "No comments"
        else [headerRow]) ++ [[Cell.s u, Cell.n 0, Cell.s t]]) ∧
    (1 ≤ c → c ≤ 3 →
      sheetRows (write_comments_to_excel wb u c t) "3 or less comments" =
        (if hasSheet wb "3 or less comments"
          then sheetRows wb "3 or less comments"
          else [headerRow]) ++ [[Cell.s u, Cell.n c, Cell.s t]]) ∧
    (3 < c → write_comments_to_excel wb u c t = wb) := by
  refine ⟨?_, ?_, ?_⟩
  · intro h0
    subst h0
    rw [write_comments_to_excel, if_pos rfl]
    exact sheetRows_write wb _ _
  · intro h1 h3
    have hne : ¬ c = 0 := by omega
    rw [write_comments_to_excel, if_neg hne, if_pos ⟨h1, h3⟩]
    exact sheetRows_write wb _ _
  · intro h3
    have hne : ¬ c = 0 := by omega
    have hne2 : ¬ (1 ≤ c ∧ c ≤ 3) := by omega
    rw [write_comments_to_excel, if_neg hne, if_neg hne2]

/-- Witness for C8: a zero-comment submission written into an empty
workbook creates the "No comments" sheet with the header and the data
row, and a 10-comment submission writes nothing. -/
theorem write_comments_routing_witness :
    sheetRows (write_comments_to_excel [] "url1" 0 "high") "No comments" =
        [headerRow, [Cell.s "url1", Cell.n 0, Cell.s "high"]] ∧
      write_comments_to_excel [] "url3" 10 "medium" = [] := by
  constructor
  · have h := (write_comments_routing [] "url1" 0 "high").1 rfl
    simpa [hasSheet] using h
  · exact (write_comments_routing [] "url3" 10 "medium").2.2 (by omega)

/-- C9: sorting the output workbook keeps every sheet in place with its
name, leaves the header row (row 1) unchanged, and rearranges the data
rows (rows 2 onward) into a permutation of themselves that is descending
by the third-column value. -/
theorem sort_output_spec (wb : Workbook) (i : Nat) (sh : Sheet)
    (h : wb[i]? = some sh) :
    ∃ sh', (sort_output_by_traffic wb)[i]? = some sh' ∧
      sh'.name = sh.name ∧
      sh'.rows.head? = sh.rows.head? ∧
      sh'.rows.tail.Perm sh.rows.tail ∧
      sh'.rows.tail.Pairwise fun a b => rowGe a b = true := by
  refine ⟨sortSheet sh, ?_, ?_, ?_, ?_, ?_⟩
  · rw [sort_output_by_traffic, List.getElem?_map, h]
    rfl
  · cases hr : sh.rows <;> simp [sortSheet, hr]
  · cases hr : sh.rows <;> simp [sortSheet, hr, sort_sheet_data_by_traffic]
  · cases hr : sh.rows with
    | nil => simp [sortSheet, hr]
    | cons hd tl =>
      simp only [sortSheet, hr, List.tail_cons]
      exact List.mergeSort_perm tl rowGe
  · cases hr : sh.rows with
    | nil => simp [sortSheet, hr]
    | cons hd tl =>
      simp only [sortSheet, hr, List.tail_cons]
      rw [sort_sheet_data_by_traffic]
      exact List.sorted_mergeSort (fun a b c => rowGe_trans a b c)
        (fun a b => rowGe_total a b) tl

/-- Witness for C9 on a one-sheet workbook whose data rows carry traffic
labels "low", "high", "medium". -/
theorem sort_output_spec_witness :
    ∃ sh', (sort_output_by_traffic [⟨"3 or less comments",
        [headerRow, [Cell.s "u1", Cell.n 1, Cell.s "low"],
          [Cell.s "u2", Cell.n 2, Cell.s "high"],
          [Cell.s "u3", Cell.n 3, Cell.s "medium"]]⟩])[0]? = some sh' ∧
      sh'.name = (⟨"3 or less comments",
        [headerRow, [Cell.s "u1", Cell.n 1, Cell.s "low"],
          [Cell.s "u2", Cell.n 2, Cell.s "high"],
          [Cell.s "u3", Cell.n 3, Cell.s "medium"]]⟩ : Sheet).name ∧
      sh'.rows.head? = (⟨"3 or less comments",
        [headerRow, [Cell.s "u1", Cell.n 1, Cell.s "low"],
          [Cell.s "u2", Cell.n 2, Cell.s "high"],
          [Cell.s "u3", Cell.n 3, Cell.s "medium"]]⟩ : Sheet).rows.head? ∧
      sh'.rows.tail.Perm (⟨"3 or less comments",
        [headerRow, [Cell.s "u1", Cell.n 1, Cell.s "low"],
          [Cell.s "u2", Cell.n 2, Cell.s "high"],
          [Cell.s "u3", Cell.n 3, Cell.s "medium"]]⟩ : Sheet).rows.tail ∧
      sh'.rows.tail.Pairwise fun a b => rowGe a b = true :=
  sort_output_spec [⟨"3 or less comments",
    [headerRow, [Cell.s "u1", Cell.n 1, Cell.s "low"],
      [Cell.s "u2", Cell.n 2, Cell.s "high"],
      [Cell.s "u3", Cell.n 3, Cell.s "medium"]]⟩] 0 _ rfl

/-- C10: a locked or archived submission is skipped: no row is written to
the workbook and no log message is emitted, whatever the comment count. -/
theorem locked_or_archived_skipped (sub : Submission) (wb : Workbook)
    (u t : String) (h : sub.locked = true ∨ sub.archived = true) :
    get_submission_comments (.ok sub) wb u t = (wb, []) := by
  rcases h with h | h <;> simp [get_submission_comments, h]

/-- Witness for C10: a locked submission with 0 comments writes no
"No comments" row into an empty workbook. -/
theorem locked_or_archived_skipped_witness :
    get_submission_comments (.ok ⟨true, false, 0⟩) [] "u" "t" = ([], []) :=
  locked_or_archived_skipped ⟨true, false, 0⟩ [] "u" "t" (Or.inl rfl)
